import Mathlib

/-!
# Agent-Automation: the browser tools of `src/tools.js`

A shallow embedding of the seven tools (`open_browser`, `open_url`,
`take_screenshot`, `find_and_click`, `fill_form_fields`, `scroll_page`,
`close_browser`).  The browser engine (Playwright) is not part of the
repository, so it is a parameter: an `Engine` decides, from the history of the
engine calls performed so far, whether the next call rejects (and with which
message) and what it answers.  The module-level variable `page` and the history
of engine calls form the explicit `Session` state.  Console logging is not
modelled.  JavaScript strings are modelled by `String`; the number `pixels` is
modelled by `Int` (the only arithmetic the code performs on it is negation).
-/

namespace AgentAutomation

set_option linter.unusedVariables false

/-- Operations the tools perform on a Playwright `Page` (or on a locator of it). -/
inductive PageOp where
  /-- The call `page.setViewportSize({ width, height })` -/
  | setViewportSize (width height : Nat)
  /-- The call `page.goto(url, { waitUntil, timeout })` -/
  | goto (url waitUntil : String) (timeout : Nat)
  /-- The call `page.waitForTimeout(ms)` -/
  | waitForTimeout (ms : Nat)
  /-- The call `page.screenshot({ fullPage, type, quality, path })` -/
  | screenshot (fullPage : Bool) (type : String) (quality : Nat) (path : String)
  /-- The call `page.locator(selector).first()` -/
  | locatorFirst (selector : String)
  /-- The call `element.isVisible({ timeout })` on the locator of `selector` -/
  | isVisible (selector : String) (timeout : Nat)
  /-- The call `element.click()` on the locator of `selector` -/
  | click (selector : String)
  /-- The call `element.fill(value)` on the locator of `selector` -/
  | fill (selector value : String)
  /-- The call `element.scrollIntoViewIfNeeded()` on the locator of `selector` -/
  | scrollIntoViewIfNeeded (selector : String)
  /-- The call `page.evaluate(amount => window.scrollBy(x, amount), amount)` -/
  | scrollBy (x amount : Int)
  /-- The call `page.close()` -/
  | close
  deriving DecidableEq, Repr

/-- Browser-engine calls: on the process-wide `browser`, or on a page handle. -/
inductive Call where
  /-- The call `browser.newPage()` -/
  | newPage
  /-- The call `browser.close()` -/
  | browserClose
  /-- An operation on the page with handle `p` -/
  | onPage (p : Nat) (op : PageOp)
  deriving DecidableEq, Repr

/-- The browser engine, as seen by the tools.  Every answer may depend on the
whole history of calls performed before (oldest first). -/
structure Engine where
  /-- The value `some msg` when the call rejects with an error whose message is `msg` -/
  fails : List Call → Call → Option String
  /-- What `isVisible` answers when it does not reject -/
  visible : List Call → Nat → String → Bool
  /-- The page handle `browser.newPage()` resolves to -/
  freshPage : List Call → Nat
  /-- The value of `Date.now()` -/
  now : List Call → Nat

/-- The mutable state: the module-level `let page;` and the engine calls
performed so far (oldest first). -/
structure Session where
  page : Option Nat
  log : List Call
  deriving DecidableEq, Repr

/-- How a call of an `execute` function ends. -/
inductive Completion where
  /-- The function returned this text -/
  | returns (text : String)
  /-- The function threw an error with this message -/
  | throws (message : String)
  deriving DecidableEq, Repr

/-- JavaScript truthiness of a string: every string but the empty one. -/
def truthy (s : String) : Bool := s != ""

/-- The method `Array.prototype.join(sep)` on an array of strings. -/
def join : List String → String → String
  | [], _ => ""
  | [a], _ => a
  | a :: b :: rest, sep => a ++ sep ++ join (b :: rest) sep

/-- The method `String.prototype.split` on the line feed, on the characters of a text:
the lines of the text. -/
def splitLines : List Char → List (List Char)
  | [] => [[]]
  | c :: cs =>
    if c = '\n' then [] :: splitLines cs
    else match splitLines cs with
      | l :: ls => (c :: l) :: ls
      | [] => [[c]]

/-- The lines of a text. -/
def lines (text : String) : List String := (splitLines text.data).map String.mk

/-! ## open_browser (tools.js 13-24) -/

/-- The function `openBrowser.execute`: no `try`, so a rejected engine call propagates. -/
def openBrowser.execute (E : Engine) (s : Session) : Completion × Session :=
  match E.fails s.log .newPage with
  | some e => (.throws e, ⟨s.page, s.log ++ [.newPage]⟩)
  | none =>
    let p := E.freshPage s.log
    let h1 := s.log ++ [.newPage]
    match E.fails h1 (.onPage p (.setViewportSize 1280 800)) with
    | some e => (.throws e, ⟨some p, h1 ++ [.onPage p (.setViewportSize 1280 800)]⟩)
    | none =>
      (.returns "Browser opened successfully",
        ⟨some p, h1 ++ [.onPage p (.setViewportSize 1280 800)]⟩)

/-! ## open_url (tools.js 27-57) -/

/-- The function `openURL.execute` -/
def openURL.execute (E : Engine) (s : Session) (url : String) : Completion × Session :=
  match s.page with
  | none => (.returns "No browser page available. Please open browser first.", s)
  | some p =>
    let c1 := Call.onPage p (.goto url "networkidle" 45000)
    match E.fails s.log c1 with
    | some e => (.returns ("Failed to navigate to " ++ url ++ ": " ++ e), ⟨some p, s.log ++ [c1]⟩)
    | none =>
      let h1 := s.log ++ [c1]
      let c2 := Call.onPage p (.waitForTimeout 2000)
      match E.fails h1 c2 with
      | some e => (.returns ("Failed to navigate to " ++ url ++ ": " ++ e), ⟨some p, h1 ++ [c2]⟩)
      | none => (.returns ("Navigated to " ++ url), ⟨some p, h1 ++ [c2]⟩)

/-! ## take_screenshot (tools.js 60-92) -/

/-- The function `takeScreenShot.execute` -/
def takeScreenShot.execute (E : Engine) (s : Session) (context : String) :
    Completion × Session :=
  match s.page with
  | none => (.returns "No browser page available.", s)
  | some p =>
    let c := Call.onPage p
      (.screenshot true "jpeg" 30 ("screenshot-" ++ toString (E.now s.log) ++ ".jpeg"))
    match E.fails s.log c with
    | some e => (.returns ("Screenshot failed: " ++ e), ⟨some p, s.log ++ [c]⟩)
    | none => (.returns "Screenshot taken", ⟨some p, s.log ++ [c]⟩)

/-! ## The selector loop shared by find_and_click and fill_form_fields -/

/-- The engine calls one pass of the loop body performs for `selector` at
history `h`: the locator is built, and `isVisible` is awaited when that did not
throw. -/
def attemptCalls (E : Engine) (p : Nat) (h : List Call) (selector : String) : List Call :=
  match E.fails h (.onPage p (.locatorFirst selector)) with
  | some _ => [.onPage p (.locatorFirst selector)]
  | none => [.onPage p (.locatorFirst selector), .onPage p (.isVisible selector 3000)]

/-- Whether the visibility check of `selector` succeeds at history `h`: the
locator is built, `isVisible` does not reject, and it answers `true`. -/
def checkSucceeds (E : Engine) (p : Nat) (h : List Call) (selector : String) : Bool :=
  match E.fails h (.onPage p (.locatorFirst selector)) with
  | some _ => false
  | none =>
    let h1 := h ++ [.onPage p (.locatorFirst selector)]
    match E.fails h1 (.onPage p (.isVisible selector 3000)) with
    | some _ => false
    | none => E.visible h1 p selector

/-- The history after one pass of the loop body for every selector in turn. -/
def attemptAll (E : Engine) (p : Nat) : List String → List Call → List Call
  | [], h => h
  | selector :: rest, h => attemptAll E p rest (h ++ attemptCalls E p h selector)

/-- The loop `for (const selector of selectors) { try { element = …; if (await
element.isVisible(…)) { found = selector; break; } } catch (e) { continue; } }`
(tools.js 130-140 and 210-220).  `element` is the locator assigned last, given
by its selector; the second component is `foundSelector` / `usedSelector`. -/
def resolveLoop (E : Engine) (p : Nat) :
    List String → Option String → List Call → Option String × String × List Call
  | [], element, h => (element, "", h)
  | selector :: rest, element, h =>
    let c1 := Call.onPage p (.locatorFirst selector)
    match E.fails h c1 with
    | some _ => resolveLoop E p rest element (h ++ [c1])
    | none =>
      let h1 := h ++ [c1]
      let c2 := Call.onPage p (.isVisible selector 3000)
      match E.fails h1 c2 with
      | some _ => resolveLoop E p rest (some selector) (h1 ++ [c2])
      | none =>
        if E.visible h1 p selector then (some selector, selector, h1 ++ [c2])
        else resolveLoop E p rest (some selector) (h1 ++ [c2])

/-! ## find_and_click (tools.js 95-158) -/

/-- The array `selectors` of `findAndClick.execute` (tools.js 115-123). -/
def clickSelectors (identifier : String) : List String :=
  [ "button:has-text(\"" ++ identifier ++ "\")",
    "a:has-text(\"" ++ identifier ++ "\")",
    "input[placeholder*=\"" ++ identifier ++ "\" i]",
    "[aria-label*=\"" ++ identifier ++ "\" i]",
    "label:has-text(\"" ++ identifier ++ "\")",
    "text=" ++ identifier,
    identifier ]

/-- The function `findAndClick.execute` -/
def findAndClick.execute (E : Engine) (s : Session) (identifier elementType : String) :
    Completion × Session :=
  match s.page with
  | none => (.returns "No browser page available.", s)
  | some p =>
    match resolveLoop E p (clickSelectors identifier) none s.log with
    | (element, foundSelector, h) =>
      match element, truthy foundSelector with
      | some el, true =>
        let c1 := Call.onPage p (.click el)
        match E.fails h c1 with
        | some e => (.returns ("Click failed: " ++ e), ⟨some p, h ++ [c1]⟩)
        | none =>
          let h1 := h ++ [c1]
          let c2 := Call.onPage p (.waitForTimeout 1000)
          match E.fails h1 c2 with
          | some e => (.returns ("Click failed: " ++ e), ⟨some p, h1 ++ [c2]⟩)
          | none => (.returns ("Clicked on " ++ identifier), ⟨some p, h1 ++ [c2]⟩)
      | _, _ => (.returns ("Element \"" ++ identifier ++ "\" not found"), ⟨some p, h⟩)

/-! ## fill_form_fields (tools.js 161-243) -/

/-- One element of the `fields` array. -/
structure Field where
  fieldIdentifier : String
  value : String
  fieldType : String
  deriving DecidableEq, Repr

/-- The array `selectors` built for one field (tools.js 191-203): six
candidates, and the type+placeholder candidate unshifted when `fieldType` is
truthy. -/
def fillSelectors (fieldIdentifier fieldType : String) : List String :=
  let selectors :=
    [ "input[placeholder*=\"" ++ fieldIdentifier ++ "\" i]",
      "input[aria-label*=\"" ++ fieldIdentifier ++ "\" i]",
      "input[name*=\"" ++ fieldIdentifier ++ "\" i]",
      "input[id*=\"" ++ fieldIdentifier ++ "\" i]",
      "label:has-text(\"" ++ fieldIdentifier ++ "\") + input, label:has-text(\""
        ++ fieldIdentifier ++ "\") ~ input",
      "//label[contains(., '" ++ fieldIdentifier ++ "')]/following::input[1]" ]
  if truthy fieldType then
    ("input[type=\"" ++ fieldType ++ "\"][placeholder*=\"" ++ fieldIdentifier ++ "\" i]")
      :: selectors
  else selectors

/-- The body of the loop over `fields` (tools.js 186-237): the message pushed to
`results` and the history afterwards. -/
def fillField (E : Engine) (p : Nat) (h : List Call) (field : Field) : String × List Call :=
  match resolveLoop E p (fillSelectors field.fieldIdentifier field.fieldType) none h with
  | (element, usedSelector, h0) =>
    match element, truthy usedSelector with
    | some el, true =>
      let c1 := Call.onPage p (.fill el field.value)
      match E.fails h0 c1 with
      | some e => ("Failed to fill " ++ field.fieldIdentifier ++ ": " ++ e, h0 ++ [c1])
      | none =>
        let h1 := h0 ++ [c1]
        let c2 := Call.onPage p (.waitForTimeout 300)
        match E.fails h1 c2 with
        | some e => ("Failed to fill " ++ field.fieldIdentifier ++ ": " ++ e, h1 ++ [c2])
        | none => ("Filled " ++ field.fieldIdentifier ++ " with " ++ field.value, h1 ++ [c2])
    | _, _ => ("Field \"" ++ field.fieldIdentifier ++ "\" not found", h0)

/-- The loop `for (const field of fields)` with its accumulator `results`. -/
def fillLoop (E : Engine) (p : Nat) :
    List Field → List String → List Call → List String × List Call
  | [], results, h => (results, h)
  | field :: rest, results, h =>
    fillLoop E p rest (results ++ [(fillField E p h field).1]) (fillField E p h field).2

/-- The function `fillFormFields.execute` -/
def fillFormFields.execute (E : Engine) (s : Session) (fields : List Field) :
    Completion × Session :=
  match s.page with
  | none => (.returns "No browser page available.", s)
  | some p =>
    (.returns (join (fillLoop E p fields [] s.log).1 "\n"),
      ⟨some p, (fillLoop E p fields [] s.log).2⟩)

/-! ## scroll_page (tools.js 246-286) -/

/-- The enum of `direction`. -/
inductive Direction where
  | up
  | down
  | toElement
  deriving DecidableEq, Repr

/-- The text `direction` is interpolated as. -/
def Direction.text : Direction → String
  | .up => "up"
  | .down => "down"
  | .toElement => "to-element"

/-- The function `scrollPage.execute`; `pixels` is `none` when the input has no such
property, and then defaults to 500. -/
def scrollPage.execute (E : Engine) (s : Session) (direction : Direction)
    (pixels : Option Int) (elementIdentifier : String) : Completion × Session :=
  let pixels := pixels.getD 500
  match s.page with
  | none => (.returns "No browser page available.", s)
  | some p =>
    if direction = .toElement ∧ truthy elementIdentifier = true then
      let sel := "text=" ++ elementIdentifier
      let c0 := Call.onPage p (.locatorFirst sel)
      match E.fails s.log c0 with
      | some e => (.returns ("Scroll failed: " ++ e), ⟨some p, s.log ++ [c0]⟩)
      | none =>
        let h0 := s.log ++ [c0]
        let c1 := Call.onPage p (.scrollIntoViewIfNeeded sel)
        match E.fails h0 c1 with
        | some e => (.returns ("Scroll failed: " ++ e), ⟨some p, h0 ++ [c1]⟩)
        | none =>
          let h1 := h0 ++ [c1]
          let c2 := Call.onPage p (.waitForTimeout 1000)
          match E.fails h1 c2 with
          | some e => (.returns ("Scroll failed: " ++ e), ⟨some p, h1 ++ [c2]⟩)
          | none => (.returns ("Scrolled " ++ direction.text), ⟨some p, h1 ++ [c2]⟩)
    else
      let scrollAmount := if direction = .up then -pixels else pixels
      let c1 := Call.onPage p (.scrollBy 0 scrollAmount)
      match E.fails s.log c1 with
      | some e => (.returns ("Scroll failed: " ++ e), ⟨some p, s.log ++ [c1]⟩)
      | none =>
        let h1 := s.log ++ [c1]
        let c2 := Call.onPage p (.waitForTimeout 800)
        match E.fails h1 c2 with
        | some e => (.returns ("Scroll failed: " ++ e), ⟨some p, h1 ++ [c2]⟩)
        | none => (.returns ("Scrolled " ++ direction.text), ⟨some p, h1 ++ [c2]⟩)

/-! ## close_browser (tools.js 289-308) -/

/-- The function `closeBrowser.Execute`: one `try` around both stages. -/
def closeBrowser.Execute (E : Engine) (s : Session) : Completion × Session :=
  match s.page with
  | some p =>
    let c1 := Call.onPage p .close
    match E.fails s.log c1 with
    | some e => (.returns ("Close failed: " ++ e), ⟨some p, s.log ++ [c1]⟩)
    | none =>
      let h1 := s.log ++ [c1]
      match E.fails h1 .browserClose with
      | some e => (.returns ("Close failed: " ++ e), ⟨none, h1 ++ [.browserClose]⟩)
      | none => (.returns "Browser closed", ⟨none, h1 ++ [.browserClose]⟩)
  | none =>
    match E.fails s.log .browserClose with
    | some e => (.returns ("Close failed: " ++ e), ⟨none, s.log ++ [.browserClose]⟩)
    | none => (.returns "Browser closed", ⟨none, s.log ++ [.browserClose]⟩)

/-! ## Classifying engine calls -/

/-- Whether the call is a click on an element. -/
def Call.isClick : Call → Bool
  | .onPage _ (.click _) => true
  | _ => false

/-- Whether the call fills an element. -/
def Call.isFill : Call → Bool
  | .onPage _ (.fill _ _) => true
  | _ => false

/-- Whether the call is a pixel scroll of the window. -/
def Call.isScrollBy : Call → Bool
  | .onPage _ (.scrollBy _ _) => true
  | _ => false

/-- Whether the call belongs to a visibility check: building the locator of a
candidate or awaiting its `isVisible`. -/
def Call.isProbe : Call → Bool
  | .onPage _ (.locatorFirst _) => true
  | .onPage _ (.isVisible _ _) => true
  | _ => false

/-- The selectors of the locators built by a run of calls, in the order in
which they were built. -/
def probedSelectors (calls : List Call) : List String :=
  calls.filterMap fun c =>
    match c with
    | .onPage _ (.locatorFirst selector) => some selector
    | _ => none

/-- The messages the loop over `fields` pushes, one per field, each computed at
the history left by the fields before it. -/
def fieldMessages (E : Engine) (p : Nat) : List Field → List Call → List String
  | [], _ => []
  | field :: rest, h => (fillField E p h field).1 :: fieldMessages E p rest (fillField E p h field).2

/-! ## Concrete engines and sessions used in the examples -/

/-- The state at module load: `page` is undefined and nothing was called. -/
def noBrowser : Session := ⟨none, []⟩

/-- An engine on which every call resolves and nothing is visible. -/
def calmEngine : Engine :=
  ⟨fun _ _ => none, fun _ _ _ => false, fun _ => 1, fun _ => 0⟩

/-- An engine on which every call resolves and every element is visible. -/
def brightEngine : Engine :=
  ⟨fun _ _ => none, fun _ _ _ => true, fun _ => 1, fun _ => 0⟩

/-- An engine on which every element is visible and every `fill` rejects with a
two-line timeout message. -/
def timeoutEngine : Engine :=
  ⟨fun _ c => match c with
      | .onPage _ (.fill _ _) => some "locator.fill: Timeout 30000ms exceeded.\nCall log:"
      | _ => none,
    fun _ _ _ => true, fun _ => 1, fun _ => 0⟩

/-- An engine on which `page.close()` rejects and every other call resolves. -/
def stuckPageEngine : Engine :=
  ⟨fun _ c => match c with
      | .onPage _ .close => some "page.close: Connection closed"
      | _ => none,
    fun _ _ _ => false, fun _ => 1, fun _ => 0⟩

/-- An engine on which every call made after a `browser.close()` rejects. -/
def closedEngine : Engine :=
  ⟨fun h _ => if Call.browserClose ∈ h then
      some "Target page, context or browser has been closed" else none,
    fun _ _ _ => false, fun _ => 1, fun _ => 0⟩

/-- An engine on which every call resolves and only the link candidate of the
identifier LOGIN is visible. -/
def linkOnlyEngine : Engine :=
  ⟨fun _ _ => none, fun _ _ selector => selector == "a:has-text(\"LOGIN\")", fun _ => 1,
    fun _ => 0⟩

/-- An engine on which every call resolves and only the placeholder candidate
of the identifier email is visible. -/
def placeholderOnlyEngine : Engine :=
  ⟨fun _ _ => none, fun _ _ selector => selector == "input[placeholder*=\"email\" i]",
    fun _ => 1, fun _ => 0⟩

/-! ## Lemmas on strings -/

theorem truthy_iff (s : String) : truthy s = true ↔ s ≠ "" := by
  simp [truthy]

theorem splitLines_of_not_mem (l : List Char) (h : '\n' ∉ l) : splitLines l = [l] := by
  induction l with
  | nil => rfl
  | cons c cs ih =>
    have hc : c ≠ '\n' := fun e => h (by simp [e])
    have hcs : '\n' ∉ cs := fun e => h (by simp [e])
    simp [splitLines, hc, ih hcs]

theorem splitLines_append (l r : List Char) (h : '\n' ∉ l) :
    splitLines (l ++ '\n' :: r) = l :: splitLines r := by
  induction l with
  | nil => simp [splitLines]
  | cons c cs ih =>
    have hc : c ≠ '\n' := fun e => h (by simp [e])
    have hcs : '\n' ∉ cs := fun e => h (by simp [e])
    simp [splitLines, hc, ih hcs]

/-- Joining messages without line feeds by the line feed and splitting again
gives the messages back. -/
theorem lines_join (msgs : List String) (hne : msgs ≠ [])
    (h : ∀ m ∈ msgs, '\n' ∉ m.data) : lines (join msgs "\n") = msgs := by
  induction msgs with
  | nil => exact absurd rfl hne
  | cons a rest ih =>
    cases rest with
    | nil =>
      simp [lines, join, splitLines_of_not_mem a.data (h a (by simp))]
    | cons b rest2 =>
      have ha : '\n' ∉ a.data := h a (by simp)
      have hrest : lines (join (b :: rest2) "\n") = b :: rest2 :=
        ih (by simp) (fun m hm => h m (by simp [hm]))
      have hd : (join (a :: b :: rest2) "\n").data
          = a.data ++ '\n' :: (join (b :: rest2) "\n").data := by
        simp [join, String.data_append]
      unfold lines at hrest ⊢
      rw [hd, splitLines_append _ _ ha, List.map_cons, hrest]

/-! ## Lemmas on the selector loop -/

theorem attemptCalls_probes (E : Engine) (p : Nat) (h : List Call) (a : String) :
    ∀ c ∈ attemptCalls E p h a, c.isProbe = true := by
  intro c hc
  unfold attemptCalls at hc
  cases h1 : E.fails h (.onPage p (.locatorFirst a)) with
  | some e => simp [h1] at hc; simp [hc, Call.isProbe]
  | none =>
    simp [h1] at hc
    rcases hc with hc | hc <;> simp [hc, Call.isProbe]

theorem resolveLoop_cons_fail (E : Engine) (p : Nat) (a : String) (l : List String)
    (el : Option String) (h : List Call) (hf : checkSucceeds E p h a = false) :
    ∃ el2, resolveLoop E p (a :: l) el h
      = resolveLoop E p l el2 (h ++ attemptCalls E p h a) := by
  unfold checkSucceeds at hf
  cases h1 : E.fails h (.onPage p (.locatorFirst a)) with
  | some e => exact ⟨el, by simp [resolveLoop, attemptCalls, h1]⟩
  | none =>
    simp only [h1] at hf
    cases h2 : E.fails (h ++ [.onPage p (.locatorFirst a)]) (.onPage p (.isVisible a 3000)) with
    | some e => exact ⟨some a, by simp [resolveLoop, attemptCalls, h1, h2]⟩
    | none =>
      simp only [h2] at hf
      exact ⟨some a, by simp [resolveLoop, attemptCalls, h1, h2, hf]⟩

theorem resolveLoop_cons_ok (E : Engine) (p : Nat) (a : String) (l : List String)
    (el : Option String) (h : List Call) (hf : checkSucceeds E p h a = true) :
    resolveLoop E p (a :: l) el h = (some a, a, h ++ attemptCalls E p h a) := by
  unfold checkSucceeds at hf
  cases h1 : E.fails h (.onPage p (.locatorFirst a)) with
  | some e => simp [h1] at hf
  | none =>
    simp only [h1] at hf
    cases h2 : E.fails (h ++ [.onPage p (.locatorFirst a)]) (.onPage p (.isVisible a 3000)) with
    | some e => simp [h2] at hf
    | none =>
      simp only [h2] at hf
      simp [resolveLoop, attemptCalls, h1, h2, hf]

/-- When every candidate fails its check, the loop tries them all in order and
leaves the found selector empty. -/
theorem resolveLoop_all_fail (E : Engine) (p : Nat) (sels : List String) :
    ∀ (el : Option String) (h : List Call),
      (∀ j (hj : j < sels.length),
        checkSucceeds E p (attemptAll E p (sels.take j) h) sels[j] = false) →
      (resolveLoop E p sels el h).2 = ("", attemptAll E p sels h) := by
  induction sels with
  | nil => intro el h _; simp [resolveLoop, attemptAll]
  | cons a l ih =>
    intro el h hall
    have h0 : checkSucceeds E p h a = false := by
      simpa [attemptAll] using hall 0 (by simp)
    obtain ⟨el2, he⟩ := resolveLoop_cons_fail E p a l el h h0
    rw [he, attemptAll]
    apply ih
    intro j hj
    simpa [attemptAll] using hall (j + 1) (by simpa using hj)

/-- The loop stops at the first candidate whose check succeeds, having tried
the candidates before it in order, and returns that candidate. -/
theorem resolveLoop_first (E : Engine) (p : Nat) (sels : List String) :
    ∀ (el : Option String) (h : List Call) (i : Nat) (hi : i < sels.length),
      (∀ j (hj : j < i),
        checkSucceeds E p (attemptAll E p (sels.take j) h) (sels[j]) = false) →
      checkSucceeds E p (attemptAll E p (sels.take i) h) sels[i] = true →
      resolveLoop E p sels el h
        = (some sels[i], sels[i], attemptAll E p (sels.take (i + 1)) h) := by
  induction sels with
  | nil => intro el h i hi; simp at hi
  | cons a l ih =>
    intro el h i hi hbefore hvis
    cases i with
    | zero =>
      have h0 : checkSucceeds E p h a = true := by simpa [attemptAll] using hvis
      simp [resolveLoop_cons_ok E p a l el h h0, attemptAll]
    | succ k =>
      have h0 : checkSucceeds E p h a = false := by
        simpa [attemptAll] using hbefore 0 (by simp)
      obtain ⟨el2, he⟩ := resolveLoop_cons_fail E p a l el h h0
      have hk : k < l.length := by simpa using hi
      rw [he]
      have := ih el2 (h ++ attemptCalls E p h a) k hk
        (fun j hj => by simpa [attemptAll] using hbefore (j + 1) (by omega))
        (by simpa [attemptAll] using hvis)
      simpa [attemptAll] using this

theorem probedSelectors_attemptCalls (E : Engine) (p : Nat) (h : List Call) (a : String) :
    probedSelectors (attemptCalls E p h a) = [a] := by
  unfold attemptCalls
  cases h1 : E.fails h (.onPage p (.locatorFirst a)) <;> simp [probedSelectors]

/-- The checks extend the history by probes only, and the locators are built
for the candidates in their order. -/
theorem attemptAll_order (E : Engine) (p : Nat) (sels : List String) :
    ∀ h : List Call, ∃ t, attemptAll E p sels h = h ++ t
      ∧ (∀ c ∈ t, c.isProbe = true) ∧ probedSelectors t = sels := by
  induction sels with
  | nil => intro h; exact ⟨[], by simp [attemptAll], by simp, rfl⟩
  | cons a l ih =>
    intro h
    obtain ⟨t, ht, hp, ho⟩ := ih (h ++ attemptCalls E p h a)
    refine ⟨attemptCalls E p h a ++ t, by simp [attemptAll, ht], ?_, ?_⟩
    · intro c hc
      rcases List.mem_append.mp hc with hc | hc
      · exact attemptCalls_probes E p h a c hc
      · exact hp c hc
    · have h1 := probedSelectors_attemptCalls E p h a
      unfold probedSelectors at h1 ho ⊢
      rw [List.filterMap_append, h1, ho]
      rfl

/-- The loop either stops at the first candidate whose check succeeds, or
tries every candidate and finds none. -/
theorem resolveLoop_cases (E : Engine) (p : Nat) (sels : List String)
    (el : Option String) (h : List Call) :
    (∃ i, ∃ hi : i < sels.length,
        resolveLoop E p sels el h
          = (some sels[i], sels[i], attemptAll E p (sels.take (i + 1)) h))
      ∨ (resolveLoop E p sels el h).2 = ("", attemptAll E p sels h) := by
  classical
  by_cases hex : ∃ i, ∃ hi : i < sels.length,
      checkSucceeds E p (attemptAll E p (sels.take i) h) sels[i] = true
  · left
    obtain ⟨hi, hv⟩ := Nat.find_spec hex
    refine ⟨Nat.find hex, hi, ?_⟩
    apply resolveLoop_first E p sels el h (Nat.find hex) hi _ hv
    intro j hj
    have hmin := Nat.find_min hex hj
    have hjl : j < sels.length := lt_trans hj hi
    cases hc : checkSucceeds E p (attemptAll E p (sels.take j) h) sels[j] with
    | false => rfl
    | true => exact absurd ⟨hjl, hc⟩ hmin
  · right
    apply resolveLoop_all_fail
    intro j hj
    cases hc : checkSucceeds E p (attemptAll E p (sels.take j) h) sels[j] with
    | false => rfl
    | true => exact absurd ⟨j, hj, hc⟩ hex

/-- Either some candidate is the first whose check succeeds, or every check
fails. -/
theorem first_check_cases (E : Engine) (p : Nat) (sels : List String) (h : List Call) :
    (∃ i, ∃ hi : i < sels.length,
        (∀ j (hj : j < i),
          checkSucceeds E p (attemptAll E p (sels.take j) h) sels[j] = false)
        ∧ checkSucceeds E p (attemptAll E p (sels.take i) h) sels[i] = true)
      ∨ ∀ j (hj : j < sels.length),
          checkSucceeds E p (attemptAll E p (sels.take j) h) sels[j] = false := by
  classical
  by_cases hex : ∃ i, ∃ hi : i < sels.length,
      checkSucceeds E p (attemptAll E p (sels.take i) h) sels[i] = true
  · left
    obtain ⟨hi, hv⟩ := Nat.find_spec hex
    refine ⟨Nat.find hex, hi, ?_, hv⟩
    intro j hj
    have hmin := Nat.find_min hex hj
    have hjl : j < sels.length := lt_trans hj hi
    cases hc : checkSucceeds E p (attemptAll E p (sels.take j) h) sels[j] with
    | false => rfl
    | true => exact absurd ⟨hjl, hc⟩ hmin
  · right
    intro j hj
    cases hc : checkSucceeds E p (attemptAll E p (sels.take j) h) sels[j] with
    | false => rfl
    | true => exact absurd ⟨j, hj, hc⟩ hex

/-! ## Lemmas on find_and_click -/

theorem findAndClick_of_found (E : Engine) (p : Nat) (log : List Call)
    (identifier elementType el sel : String) (H : List Call)
    (hr : resolveLoop E p (clickSelectors identifier) none log = (some el, sel, H))
    (hne : sel ≠ "") :
    ∃ t, (findAndClick.execute E ⟨some p, log⟩ identifier elementType).2
          = ⟨some p, H ++ Call.onPage p (.click el) :: t⟩
      ∧ (∀ c ∈ t, c = Call.onPage p (.waitForTimeout 1000))
      ∧ ((findAndClick.execute E ⟨some p, log⟩ identifier elementType).1
            = .returns ("Clicked on " ++ identifier)
          ∨ ∃ e, (findAndClick.execute E ⟨some p, log⟩ identifier elementType).1
            = .returns ("Click failed: " ++ e))
      ∧ (E.fails H (.onPage p (.click el)) = none →
          E.fails (H ++ [.onPage p (.click el)]) (.onPage p (.waitForTimeout 1000)) = none →
          (findAndClick.execute E ⟨some p, log⟩ identifier elementType).1
            = .returns ("Clicked on " ++ identifier)) := by
  have ht : truthy sel = true := (truthy_iff sel).2 hne
  unfold findAndClick.execute
  simp only [hr, ht]
  cases h1 : E.fails H (.onPage p (.click el)) with
  | some e => exact ⟨[], by simp, by simp, Or.inr ⟨e, rfl⟩, by simp⟩
  | none =>
    cases h2 : E.fails (H ++ [.onPage p (.click el)]) (.onPage p (.waitForTimeout 1000)) with
    | some e =>
      exact ⟨[.onPage p (.waitForTimeout 1000)], by simp, by simp, Or.inr ⟨e, rfl⟩, by simp⟩
    | none =>
      exact ⟨[.onPage p (.waitForTimeout 1000)], by simp, by simp, Or.inl rfl, by simp⟩

theorem findAndClick_of_not_found (E : Engine) (p : Nat) (log : List Call)
    (identifier elementType : String) (H : List Call)
    (hr : (resolveLoop E p (clickSelectors identifier) none log).2 = ("", H)) :
    findAndClick.execute E ⟨some p, log⟩ identifier elementType
      = (.returns ("Element \"" ++ identifier ++ "\" not found"), ⟨some p, H⟩) := by
  rcases hres : resolveLoop E p (clickSelectors identifier) none log with ⟨el, f, H2⟩
  rw [hres] at hr
  simp only [Prod.mk.injEq] at hr
  obtain ⟨hf, hH⟩ := hr
  subst hf hH
  unfold findAndClick.execute
  simp only [hres]
  cases el <;> simp [truthy]

theorem not_found_ne_clicked (identifier : String) :
    (Completion.returns ("Element \"" ++ identifier ++ "\" not found"))
      ≠ .returns ("Clicked on " ++ identifier) := by
  intro h
  have h2 := congrArg String.data (Completion.returns.inj h)
  simp [String.data_append] at h2

theorem isClick_of_isProbe (c : Call) (h : c.isProbe = true) : c.isClick = false := by
  cases c with
  | newPage => rfl
  | browserClose => rfl
  | onPage q op => cases op <;> first | rfl | simp [Call.isProbe] at h

theorem clickSelectors_ne_empty (identifier : String) (i : Nat)
    (hi : i < (clickSelectors identifier).length) (h : identifier ≠ "" ∨ i < 6) :
    (clickSelectors identifier)[i] ≠ "" := by
  have h7 : i < 7 := by simpa [clickSelectors] using hi
  interval_cases i
  · simp [clickSelectors, String.ext_iff, String.data_append]
  · simp [clickSelectors, String.ext_iff, String.data_append]
  · simp [clickSelectors, String.ext_iff, String.data_append]
  · simp [clickSelectors, String.ext_iff, String.data_append]
  · simp [clickSelectors, String.ext_iff, String.data_append]
  · simp [clickSelectors, String.ext_iff, String.data_append]
  · rcases h with h | h
    · simpa [clickSelectors] using h
    · omega

theorem isFill_of_isProbe (c : Call) (h : c.isProbe = true) : c.isFill = false := by
  cases c with
  | newPage => rfl
  | browserClose => rfl
  | onPage q op => cases op <;> first | rfl | simp [Call.isProbe] at h

/-- The run of find_and_click when candidate `i` is the first whose check
succeeds and its selector is not empty. -/
theorem findAndClick_at_first (E : Engine) (p : Nat) (log : List Call)
    (identifier elementType : String) (i : Nat) (hi : i < (clickSelectors identifier).length)
    (hbefore : ∀ j (hj : j < i),
      checkSucceeds E p (attemptAll E p ((clickSelectors identifier).take j) log)
        (clickSelectors identifier)[j] = false)
    (hvis : checkSucceeds E p (attemptAll E p ((clickSelectors identifier).take i) log)
      (clickSelectors identifier)[i] = true)
    (hne : (clickSelectors identifier)[i] ≠ "") :
    ∃ t0 t, (findAndClick.execute E ⟨some p, log⟩ identifier elementType).2
        = ⟨some p, log ++ t0 ++ Call.onPage p (.click (clickSelectors identifier)[i]) :: t⟩
      ∧ (∀ c ∈ t0, c.isProbe = true)
      ∧ probedSelectors t0 = (clickSelectors identifier).take (i + 1)
      ∧ (∀ c ∈ t, c = Call.onPage p (.waitForTimeout 1000))
      ∧ ((findAndClick.execute E ⟨some p, log⟩ identifier elementType).1
            = .returns ("Clicked on " ++ identifier)
          ∨ ∃ e, (findAndClick.execute E ⟨some p, log⟩ identifier elementType).1
            = .returns ("Click failed: " ++ e)) := by
  have hr := resolveLoop_first E p (clickSelectors identifier) none log i hi hbefore hvis
  obtain ⟨t0, ht0, hp, ho⟩ :=
    attemptAll_order E p ((clickSelectors identifier).take (i + 1)) log
  obtain ⟨t, ht, hw, hres, _⟩ :=
    findAndClick_of_found E p log identifier elementType _ _ _ hr hne
  exact ⟨t0, t, by rw [ht, ht0], hp, ho, hw, hres⟩

/-- The run of find_and_click when the check of every candidate fails. -/
theorem findAndClick_at_none (E : Engine) (p : Nat) (log : List Call)
    (identifier elementType : String)
    (hfail : ∀ j (hj : j < (clickSelectors identifier).length),
      checkSucceeds E p (attemptAll E p ((clickSelectors identifier).take j) log)
        (clickSelectors identifier)[j] = false) :
    ∃ t0, findAndClick.execute E ⟨some p, log⟩ identifier elementType
        = (.returns ("Element \"" ++ identifier ++ "\" not found"), ⟨some p, log ++ t0⟩)
      ∧ (∀ c ∈ t0, c.isProbe = true)
      ∧ probedSelectors t0 = clickSelectors identifier := by
  have hr := resolveLoop_all_fail E p (clickSelectors identifier) none log hfail
  have hx := findAndClick_of_not_found E p log identifier elementType _ hr
  obtain ⟨t, ht, hp, ho⟩ := attemptAll_order E p (clickSelectors identifier) log
  exact ⟨t, by rw [hx, ht], hp, ho⟩

/-! ## The guard on a missing Page -/

/-- Claim C1, as stated, fails: with no Page open, open_url and take_screenshot
return two different texts, and close_browser calls the engine and returns the
success text. -/
theorem no_page_texts_differ :
    (openURL.execute calmEngine noBrowser "https://example.test/login").1
        ≠ (takeScreenShot.execute calmEngine noBrowser "login page").1
      ∧ closeBrowser.Execute calmEngine noBrowser
        = (.returns "Browser closed", ⟨none, [.browserClose]⟩) := by
  decide

/-- Claim C1, amended: with no Page open, take_screenshot, find_and_click,
fill_form_fields and scroll_page return the text "No browser page available."
and open_url returns "No browser page available. Please open browser first.",
for every input, and none of the five performs an engine call (the session,
history included, is unchanged); close_browser has no such guard: it attempts
`browser.close()` and returns "Browser closed" when that call resolves and
"Close failed: " followed by the message when it rejects. -/
theorem no_page_guard (E : Engine) (log : List Call) :
    (∀ url, openURL.execute E ⟨none, log⟩ url
        = (.returns "No browser page available. Please open browser first.", ⟨none, log⟩))
      ∧ (∀ context, takeScreenShot.execute E ⟨none, log⟩ context
        = (.returns "No browser page available.", ⟨none, log⟩))
      ∧ (∀ identifier elementType, findAndClick.execute E ⟨none, log⟩ identifier elementType
        = (.returns "No browser page available.", ⟨none, log⟩))
      ∧ (∀ fields, fillFormFields.execute E ⟨none, log⟩ fields
        = (.returns "No browser page available.", ⟨none, log⟩))
      ∧ (∀ direction pixels elementIdentifier,
          scrollPage.execute E ⟨none, log⟩ direction pixels elementIdentifier
        = (.returns "No browser page available.", ⟨none, log⟩))
      ∧ (E.fails log .browserClose = none →
          closeBrowser.Execute E ⟨none, log⟩
            = (.returns "Browser closed", ⟨none, log ++ [.browserClose]⟩))
      ∧ (∀ e, E.fails log .browserClose = some e →
          closeBrowser.Execute E ⟨none, log⟩
            = (.returns ("Close failed: " ++ e), ⟨none, log ++ [.browserClose]⟩)) := by
  refine ⟨fun _ => rfl, fun _ => rfl, fun _ _ => rfl, fun _ => rfl, fun _ _ _ => rfl, ?_, ?_⟩
  · intro h
    simp [closeBrowser.Execute, h]
  · intro e h
    simp [closeBrowser.Execute, h]

/-- Witness of `no_page_guard`: close_browser with no Page, on an engine whose
`browser.close()` resolves and on one whose `browser.close()` rejects. -/
theorem no_page_guard_witness :
    closeBrowser.Execute calmEngine ⟨none, []⟩
        = (.returns "Browser closed", ⟨none, [] ++ [.browserClose]⟩)
      ∧ closeBrowser.Execute closedEngine ⟨none, [.browserClose]⟩
        = (.returns ("Close failed: " ++ "Target page, context or browser has been closed"),
            ⟨none, [.browserClose] ++ [.browserClose]⟩) :=
  ⟨(no_page_guard calmEngine []).2.2.2.2.2.1 rfl,
    (no_page_guard closedEngine [.browserClose]).2.2.2.2.2.2 _ rfl⟩

/-! ## Failures of the engine inside a tool -/

/-- The six tools with a `try` return a text whatever the engine does. -/
theorem guarded_tools_return_text (E : Engine) (s : Session) :
    (∀ url, ∃ t, (openURL.execute E s url).1 = .returns t)
      ∧ (∀ context, ∃ t, (takeScreenShot.execute E s context).1 = .returns t)
      ∧ (∀ identifier elementType,
          ∃ t, (findAndClick.execute E s identifier elementType).1 = .returns t)
      ∧ (∀ fields, ∃ t, (fillFormFields.execute E s fields).1 = .returns t)
      ∧ (∀ direction pixels elementIdentifier,
          ∃ t, (scrollPage.execute E s direction pixels elementIdentifier).1 = .returns t)
      ∧ ∃ t, (closeBrowser.Execute E s).1 = .returns t := by
  refine ⟨?_, ?_, ?_, ?_, ?_, ?_⟩
  · intro url
    unfold openURL.execute
    repeat' first | split | dsimp only
    all_goals exact ⟨_, rfl⟩
  · intro context
    unfold takeScreenShot.execute
    repeat' first | split | dsimp only
    all_goals exact ⟨_, rfl⟩
  · intro identifier elementType
    unfold findAndClick.execute
    repeat' first | split | dsimp only
    all_goals exact ⟨_, rfl⟩
  · intro fields
    unfold fillFormFields.execute
    repeat' first | split | dsimp only
    all_goals exact ⟨_, rfl⟩
  · intro direction pixels elementIdentifier
    unfold scrollPage.execute
    repeat' first | split | dsimp only
    all_goals exact ⟨_, rfl⟩
  · unfold closeBrowser.Execute
    repeat' first | split | dsimp only
    all_goals exact ⟨_, rfl⟩

/-- Claim C3 fails on open_browser: after open_browser and close_browser, a
second open_browser finds `browser.newPage()` rejecting on the closed browser,
and `openBrowser.execute`, which has no `try`, throws that error. -/
theorem openBrowser_throws_after_close :
    openBrowser.execute closedEngine
        (closeBrowser.Execute closedEngine (openBrowser.execute closedEngine noBrowser).2).2
      = (.throws "Target page, context or browser has been closed",
          ⟨none, [.newPage, .onPage 1 (.setViewportSize 1280 800), .onPage 1 .close,
            .browserClose, .newPage]⟩) := by
  decide

/-! ## close_browser -/

/-- Claim C5, as stated, fails: with a Page open whose `page.close()` rejects,
close_browser returns the failure text and `browser.close()` is never
attempted. -/
theorem closeBrowser_skips_engine_cleanup :
    closeBrowser.Execute stuckPageEngine ⟨some 1, []⟩
        = (.returns "Close failed: page.close: Connection closed", ⟨some 1, [.onPage 1 .close]⟩)
      ∧ Call.browserClose ∉ (closeBrowser.Execute stuckPageEngine ⟨some 1, []⟩).2.log := by
  decide

/-- Claim C5, amended: with a Page open, close_browser attempts `page.close()`
first; when it rejects, the call returns "Close failed: " followed by the
message, `browser.close()` is not attempted and the Page reference is kept;
when it resolves, the Page reference is cleared and `browser.close()` is
attempted next. -/
theorem closeBrowser_stages (E : Engine) (p : Nat) (log : List Call) :
    (∀ e, E.fails log (.onPage p .close) = some e →
        closeBrowser.Execute E ⟨some p, log⟩
          = (.returns ("Close failed: " ++ e), ⟨some p, log ++ [.onPage p .close]⟩))
      ∧ (E.fails log (.onPage p .close) = none →
        (closeBrowser.Execute E ⟨some p, log⟩).2
          = ⟨none, log ++ [.onPage p .close, .browserClose]⟩) := by
  constructor
  · intro e he
    simp [closeBrowser.Execute, he]
  · intro he
    unfold closeBrowser.Execute
    simp only [he]
    cases h2 : E.fails (log ++ [.onPage p .close]) .browserClose <;> simp [h2]

/-- Witness of `closeBrowser_stages`: a rejecting and a resolving `page.close()`. -/
theorem closeBrowser_stages_witness :
    closeBrowser.Execute stuckPageEngine ⟨some 1, []⟩
        = (.returns ("Close failed: " ++ "page.close: Connection closed"),
            ⟨some 1, [] ++ [.onPage 1 .close]⟩)
      ∧ (closeBrowser.Execute calmEngine ⟨some 1, []⟩).2
        = ⟨none, [] ++ [.onPage 1 .close, .browserClose]⟩ :=
  ⟨(closeBrowser_stages stuckPageEngine 1 []).1 _ rfl,
    (closeBrowser_stages calmEngine 1 []).2 rfl⟩

/-- Claim C6, as stated, fails: when `page.close()` rejects, close_browser
returns with the Page reference still set, and a take_screenshot issued
afterwards calls the engine instead of returning its NoBrowser text. -/
theorem closeBrowser_keeps_page :
    (closeBrowser.Execute stuckPageEngine ⟨some 1, []⟩).2.page = some 1
      ∧ (takeScreenShot.execute stuckPageEngine
            (closeBrowser.Execute stuckPageEngine ⟨some 1, []⟩).2 "after close").1
        ≠ (takeScreenShot.execute stuckPageEngine noBrowser "after close").1 := by
  decide

/-- Claim C6, amended: once a close_browser call in which `page.close()` did not
reject (or no Page was open) has returned, the Page reference is cleared, and
open_url, take_screenshot, find_and_click, fill_form_fields and scroll_page then
return exactly what they return in the initial NoBrowser state, with no engine
call; close_browser then takes its path without a Page. -/
theorem closeBrowser_clears_page (E : Engine) (s : Session)
    (hclose : ∀ p, s.page = some p → E.fails s.log (.onPage p .close) = none) :
    (closeBrowser.Execute E s).2.page = none
      ∧ (∀ url, openURL.execute E (closeBrowser.Execute E s).2 url
        = ((openURL.execute E noBrowser url).1, (closeBrowser.Execute E s).2))
      ∧ (∀ context, takeScreenShot.execute E (closeBrowser.Execute E s).2 context
        = ((takeScreenShot.execute E noBrowser context).1, (closeBrowser.Execute E s).2))
      ∧ (∀ identifier elementType,
          findAndClick.execute E (closeBrowser.Execute E s).2 identifier elementType
        = ((findAndClick.execute E noBrowser identifier elementType).1,
            (closeBrowser.Execute E s).2))
      ∧ (∀ fields, fillFormFields.execute E (closeBrowser.Execute E s).2 fields
        = ((fillFormFields.execute E noBrowser fields).1, (closeBrowser.Execute E s).2))
      ∧ (∀ direction pixels elementIdentifier,
          scrollPage.execute E (closeBrowser.Execute E s).2 direction pixels elementIdentifier
        = ((scrollPage.execute E noBrowser direction pixels elementIdentifier).1,
            (closeBrowser.Execute E s).2))
      ∧ closeBrowser.Execute E (closeBrowser.Execute E s).2
        = closeBrowser.Execute E ⟨none, (closeBrowser.Execute E s).2.log⟩ := by
  have hpage : (closeBrowser.Execute E s).2.page = none := by
    obtain ⟨page, log⟩ := s
    cases page with
    | none =>
      unfold closeBrowser.Execute
      cases h : E.fails log .browserClose <;> simp [h]
    | some p =>
      have h1 := hclose p rfl
      simp only at h1
      unfold closeBrowser.Execute
      simp only [h1]
      cases h : E.fails (log ++ [.onPage p .close]) .browserClose <;> simp [h]
  generalize closeBrowser.Execute E s = r at hpage
  obtain ⟨c, page, log⟩ := r
  simp only at hpage
  subst hpage
  exact ⟨rfl, fun _ => rfl, fun _ => rfl, fun _ _ => rfl, fun _ => rfl, fun _ _ _ => rfl, rfl⟩

/-- Witness of `closeBrowser_clears_page`: a Page is open and every call resolves. -/
theorem closeBrowser_clears_page_witness :
    (closeBrowser.Execute calmEngine ⟨some 1, []⟩).2.page = none :=
  (closeBrowser_clears_page calmEngine ⟨some 1, []⟩ (fun _ _ => rfl)).1

/-- Claim C7: for every session state, on an engine whose close calls resolve
(as `page.close()` and `browser.close()` do, also on a browser already closed),
when close_browser is called twice in a row the second call returns the
success text "Browser closed", neither a failure text nor an exception, and
leaves the session state unchanged: the Page reference is cleared before and
after it, and the only engine call it makes is `browser.close()`. -/
theorem closeBrowser_twice (E : Engine) (s : Session)
    (hpage : ∀ p, s.page = some p → E.fails s.log (.onPage p .close) = none)
    (hbrowser : ∀ h, E.fails h .browserClose = none) :
    (closeBrowser.Execute E s).1 = .returns "Browser closed"
      ∧ (closeBrowser.Execute E (closeBrowser.Execute E s).2).1 = .returns "Browser closed"
      ∧ (closeBrowser.Execute E s).2.page = none
      ∧ (closeBrowser.Execute E (closeBrowser.Execute E s).2).2.page
        = (closeBrowser.Execute E s).2.page
      ∧ (closeBrowser.Execute E (closeBrowser.Execute E s).2).2.log
        = (closeBrowser.Execute E s).2.log ++ [.browserClose] := by
  obtain ⟨page, log⟩ := s
  cases page with
  | none =>
    simp [closeBrowser.Execute, hbrowser]
  | some p =>
    have h1 := hpage p rfl
    simp only at h1
    simp [closeBrowser.Execute, hbrowser, h1]

/-- Witness of `closeBrowser_twice`: a Page is open and every call resolves. -/
theorem closeBrowser_twice_witness :
    (closeBrowser.Execute calmEngine ⟨some 1, []⟩).1 = .returns "Browser closed"
      ∧ (closeBrowser.Execute calmEngine (closeBrowser.Execute calmEngine ⟨some 1, []⟩).2).1
        = .returns "Browser closed"
      ∧ (closeBrowser.Execute calmEngine ⟨some 1, []⟩).2.page = none
      ∧ (closeBrowser.Execute calmEngine (closeBrowser.Execute calmEngine ⟨some 1, []⟩).2).2.page
        = (closeBrowser.Execute calmEngine ⟨some 1, []⟩).2.page
      ∧ (closeBrowser.Execute calmEngine (closeBrowser.Execute calmEngine ⟨some 1, []⟩).2).2.log
        = (closeBrowser.Execute calmEngine ⟨some 1, []⟩).2.log ++ [.browserClose] :=
  closeBrowser_twice calmEngine ⟨some 1, []⟩ (fun _ _ => rfl) (fun _ => rfl)

/-! ## find_and_click -/

/-- Claim C4: for every identifier and every page on which the visibility check
of every candidate selector fails (the check answers false or throws),
find_and_click returns the not-found text of that identifier, which is not the
success text "Clicked on " followed by the identifier, and the only engine
calls it makes are the checks of the seven candidates: no click is invoked. -/
theorem findAndClick_not_found (E : Engine) (p : Nat) (log : List Call)
    (identifier elementType : String)
    (hfail : ∀ j (hj : j < (clickSelectors identifier).length),
      checkSucceeds E p (attemptAll E p ((clickSelectors identifier).take j) log)
        (clickSelectors identifier)[j] = false) :
    (findAndClick.execute E ⟨some p, log⟩ identifier elementType).1
        = .returns ("Element \"" ++ identifier ++ "\" not found")
      ∧ (findAndClick.execute E ⟨some p, log⟩ identifier elementType).1
        ≠ .returns ("Clicked on " ++ identifier)
      ∧ ∃ t, (findAndClick.execute E ⟨some p, log⟩ identifier elementType).2
            = ⟨some p, log ++ t⟩
          ∧ (∀ c ∈ t, c.isProbe = true) ∧ (∀ c ∈ t, c.isClick = false)
          ∧ probedSelectors t = clickSelectors identifier := by
  have hr := resolveLoop_all_fail E p (clickSelectors identifier) none log hfail
  have hx := findAndClick_of_not_found E p log identifier elementType _ hr
  obtain ⟨t, ht, hp, ho⟩ := attemptAll_order E p (clickSelectors identifier) log
  rw [hx]
  refine ⟨rfl, not_found_ne_clicked identifier, t, by simp [ht], hp, ?_, ho⟩
  intro c hc
  exact isClick_of_isProbe c (hp c hc)

/-- Witness of `findAndClick_not_found`: nothing is visible on the page. -/
theorem findAndClick_not_found_witness :
    (findAndClick.execute calmEngine ⟨some 1, []⟩ "Sign in" "button").1
      = .returns ("Element \"" ++ "Sign in" ++ "\" not found") :=
  (findAndClick_not_found calmEngine 1 [] "Sign in" "button" (fun _ _ => rfl)).1

/-- Claim C8: on an engine that never reports the empty selector visible (the
engine rejects an empty selector), for every identifier the candidates of
find_and_click are, in this order, the button text, link text, placeholder,
aria-label, label text, generic text and raw selectors; when some candidate
passes its visibility check, the candidates up to the first such one are
checked in that order and the next call is the click on that candidate,
followed at most by the settle delay; when none passes, all seven are checked
in order, no other call is made and the not-found text is returned; so every
click the run makes is on the first candidate whose check succeeded, every
earlier candidate having failed it. -/
theorem findAndClick_clicks_first_visible (E : Engine) (p : Nat) (log : List Call)
    (identifier elementType : String)
    (hempty : ∀ h, checkSucceeds E p h "" = false) :
    clickSelectors identifier
        = [ "button:has-text(\"" ++ identifier ++ "\")",
            "a:has-text(\"" ++ identifier ++ "\")",
            "input[placeholder*=\"" ++ identifier ++ "\" i]",
            "[aria-label*=\"" ++ identifier ++ "\" i]",
            "label:has-text(\"" ++ identifier ++ "\")",
            "text=" ++ identifier,
            identifier ]
      ∧ (∀ i (hi : i < (clickSelectors identifier).length),
          (∀ j (hj : j < i),
            checkSucceeds E p (attemptAll E p ((clickSelectors identifier).take j) log)
              (clickSelectors identifier)[j] = false) →
          checkSucceeds E p (attemptAll E p ((clickSelectors identifier).take i) log)
            (clickSelectors identifier)[i] = true →
          ∃ t0 t, (findAndClick.execute E ⟨some p, log⟩ identifier elementType).2
              = ⟨some p, log ++ t0 ++ Call.onPage p (.click (clickSelectors identifier)[i]) :: t⟩
            ∧ (∀ c ∈ t0, c.isProbe = true)
            ∧ probedSelectors t0 = (clickSelectors identifier).take (i + 1)
            ∧ (∀ c ∈ t, c = Call.onPage p (.waitForTimeout 1000))
            ∧ ((findAndClick.execute E ⟨some p, log⟩ identifier elementType).1
                  = .returns ("Clicked on " ++ identifier)
                ∨ ∃ e, (findAndClick.execute E ⟨some p, log⟩ identifier elementType).1
                  = .returns ("Click failed: " ++ e)))
      ∧ ((∀ j (hj : j < (clickSelectors identifier).length),
            checkSucceeds E p (attemptAll E p ((clickSelectors identifier).take j) log)
              (clickSelectors identifier)[j] = false) →
          ∃ t0, findAndClick.execute E ⟨some p, log⟩ identifier elementType
              = (.returns ("Element \"" ++ identifier ++ "\" not found"),
                  ⟨some p, log ++ t0⟩)
            ∧ (∀ c ∈ t0, c.isProbe = true)
            ∧ probedSelectors t0 = clickSelectors identifier)
      ∧ ∀ made, (findAndClick.execute E ⟨some p, log⟩ identifier elementType).2.log
            = log ++ made →
          ∀ c ∈ made, c.isClick = true →
          ∃ i, ∃ hi : i < (clickSelectors identifier).length,
            (∀ j (hj : j < i),
              checkSucceeds E p (attemptAll E p ((clickSelectors identifier).take j) log)
                (clickSelectors identifier)[j] = false)
            ∧ checkSucceeds E p (attemptAll E p ((clickSelectors identifier).take i) log)
              (clickSelectors identifier)[i] = true
            ∧ c = Call.onPage p (.click (clickSelectors identifier)[i]) := by
  have hne : ∀ i (hi : i < (clickSelectors identifier).length),
      checkSucceeds E p (attemptAll E p ((clickSelectors identifier).take i) log)
        (clickSelectors identifier)[i] = true → (clickSelectors identifier)[i] ≠ "" := by
    intro i hi hv h0
    rw [h0, hempty] at hv
    exact Bool.false_ne_true hv
  refine ⟨rfl, ?_, findAndClick_at_none E p log identifier elementType, ?_⟩
  · intro i hi hbefore hvis
    exact findAndClick_at_first E p log identifier elementType i hi hbefore hvis
      (hne i hi hvis)
  · intro made hmade c hc hclick
    rcases first_check_cases E p (clickSelectors identifier) log with ⟨i, hi, hb, hv⟩ | hall
    · obtain ⟨t0, t, h2, hp, _, hw, _⟩ :=
        findAndClick_at_first E p log identifier elementType i hi hb hv (hne i hi hv)
      rw [h2] at hmade
      simp only [List.append_assoc] at hmade
      have hm := List.append_cancel_left hmade
      rw [← hm] at hc
      rcases List.mem_append.mp hc with hc | hc
      · rw [isClick_of_isProbe c (hp c hc)] at hclick
        exact absurd hclick Bool.false_ne_true
      · rcases List.mem_cons.mp hc with hc | hc
        · exact ⟨i, hi, hb, hv, hc⟩
        · rw [hw c hc] at hclick
          exact absurd hclick (by simp [Call.isClick])
    · obtain ⟨t0, h3, hp, _⟩ := findAndClick_at_none E p log identifier elementType hall
      rw [h3] at hmade
      have hm := List.append_cancel_left hmade
      rw [← hm] at hc
      rw [isClick_of_isProbe c (hp c hc)] at hclick
      exact absurd hclick Bool.false_ne_true

/-- Witness of `findAndClick_clicks_first_visible`: only the link candidate is
visible, so the button candidate fails and the link, the second candidate, is
the one clicked. -/
theorem findAndClick_clicks_first_visible_witness :
    ∃ t0 t, (findAndClick.execute linkOnlyEngine ⟨some 1, []⟩ "LOGIN" "link").2
        = ⟨some 1, [] ++ t0 ++ Call.onPage 1 (.click (clickSelectors "LOGIN")[1]) :: t⟩
      ∧ (∀ c ∈ t0, c.isProbe = true)
      ∧ probedSelectors t0 = (clickSelectors "LOGIN").take (1 + 1)
      ∧ (∀ c ∈ t, c = Call.onPage 1 (.waitForTimeout 1000))
      ∧ ((findAndClick.execute linkOnlyEngine ⟨some 1, []⟩ "LOGIN" "link").1
            = .returns ("Clicked on " ++ "LOGIN")
          ∨ ∃ e, (findAndClick.execute linkOnlyEngine ⟨some 1, []⟩ "LOGIN" "link").1
            = .returns ("Click failed: " ++ e)) :=
  (findAndClick_clicks_first_visible linkOnlyEngine 1 [] "LOGIN" "link"
    (fun _ => rfl)).2.1 1 (by decide) (by decide) (by decide)

/-! ## fill_form_fields -/

theorem fillSelectors_ne_empty (fieldIdentifier fieldType : String) :
    ∀ sel ∈ fillSelectors fieldIdentifier fieldType, sel ≠ "" := by
  intro sel hsel
  unfold fillSelectors at hsel
  split at hsel
  · simp at hsel
    rcases hsel with h | h | h | h | h | h | h <;> subst h <;>
      simp [String.ext_iff, String.data_append]
  · simp at hsel
    rcases hsel with h | h | h | h | h | h <;> subst h <;>
      simp [String.ext_iff, String.data_append]

theorem fillField_of_found (E : Engine) (p : Nat) (h : List Call) (field : Field)
    (el sel : String) (H : List Call)
    (hr : resolveLoop E p (fillSelectors field.fieldIdentifier field.fieldType) none h
      = (some el, sel, H))
    (hne : sel ≠ "") :
    ∃ t, (fillField E p h field).2 = H ++ Call.onPage p (.fill el field.value) :: t
      ∧ (∀ c ∈ t, c = Call.onPage p (.waitForTimeout 300))
      ∧ ((fillField E p h field).1
            = "Filled " ++ field.fieldIdentifier ++ " with " ++ field.value
          ∨ ∃ e, (fillField E p h field).1
            = "Failed to fill " ++ field.fieldIdentifier ++ ": " ++ e) := by
  have ht : truthy sel = true := (truthy_iff sel).2 hne
  unfold fillField
  simp only [hr, ht]
  cases h1 : E.fails H (.onPage p (.fill el field.value)) with
  | some e => exact ⟨[], by simp, by simp, Or.inr ⟨e, rfl⟩⟩
  | none =>
    cases h2 : E.fails (H ++ [.onPage p (.fill el field.value)])
        (.onPage p (.waitForTimeout 300)) with
    | some e => exact ⟨[.onPage p (.waitForTimeout 300)], by simp, by simp, Or.inr ⟨e, rfl⟩⟩
    | none => exact ⟨[.onPage p (.waitForTimeout 300)], by simp, by simp, Or.inl rfl⟩

theorem fillField_of_not_found (E : Engine) (p : Nat) (h : List Call) (field : Field)
    (H : List Call)
    (hr : (resolveLoop E p (fillSelectors field.fieldIdentifier field.fieldType) none h).2
      = ("", H)) :
    fillField E p h field = ("Field \"" ++ field.fieldIdentifier ++ "\" not found", H) := by
  rcases hres : resolveLoop E p (fillSelectors field.fieldIdentifier field.fieldType) none h
    with ⟨el, f, H2⟩
  rw [hres] at hr
  simp only [Prod.mk.injEq] at hr
  obtain ⟨hf, hH⟩ := hr
  subst hf hH
  unfold fillField
  simp only [hres]
  cases el <;> simp [truthy]

/-- Every message pushed for a field has one of the three forms of the source. -/
theorem fillField_message (E : Engine) (p : Nat) (h : List Call) (field : Field) :
    (fillField E p h field).1 = "Field \"" ++ field.fieldIdentifier ++ "\" not found"
      ∨ (fillField E p h field).1
        = "Filled " ++ field.fieldIdentifier ++ " with " ++ field.value
      ∨ ∃ e, (fillField E p h field).1
        = "Failed to fill " ++ field.fieldIdentifier ++ ": " ++ e := by
  unfold fillField
  repeat' first | split | dsimp only
  all_goals first
    | exact Or.inl rfl
    | exact Or.inr (Or.inl rfl)
    | exact Or.inr (Or.inr ⟨_, rfl⟩)

theorem fillLoop_eq (E : Engine) (p : Nat) (fields : List Field) :
    ∀ (results : List String) (h : List Call),
      fillLoop E p fields results h
        = (results ++ fieldMessages E p fields h, (fillLoop E p fields [] h).2) := by
  induction fields with
  | nil => intro results h; simp [fillLoop, fieldMessages]
  | cons f rest ih =>
    intro results h
    simp only [fillLoop, fieldMessages]
    rw [ih (results ++ [(fillField E p h f).1]), ih ([] ++ [(fillField E p h f).1])]
    simp

theorem fieldMessages_length (E : Engine) (p : Nat) (fields : List Field) :
    ∀ h : List Call, (fieldMessages E p fields h).length = fields.length := by
  induction fields with
  | nil => intro h; rfl
  | cons f rest ih => intro h; simp [fieldMessages, ih]

theorem fieldMessages_getElem (E : Engine) (p : Nat) (fields : List Field) :
    ∀ (h : List Call) (i : Nat) (hi : i < fields.length),
      (fieldMessages E p fields h)[i]?
        = some (fillField E p (fillLoop E p (fields.take i) [] h).2 fields[i]).1 := by
  induction fields with
  | nil => intro h i hi; simp at hi
  | cons f rest ih =>
    intro h i hi
    cases i with
    | zero => simp [fieldMessages, fillLoop]
    | succ k =>
      have hk : k < rest.length := by simpa using hi
      have := ih (fillField E p h f).2 k hk
      simp only [fieldMessages, List.getElem?_cons_succ, this, List.take_succ_cons, fillLoop,
        List.getElem_cons_succ]
      rw [fillLoop_eq E p (rest.take k) ([] ++ [(fillField E p h f).1])]

/-- Claim C2, as stated, fails: with one field whose `fill` rejects with the
two-line timeout message of the engine, fill_form_fields returns a text of two
lines for one descriptor. -/
theorem fillFormFields_two_lines :
    (fillFormFields.execute timeoutEngine ⟨some 1, []⟩ [⟨"email", "a@b.com", "email"⟩]).1
        = .returns "Failed to fill email: locator.fill: Timeout 30000ms exceeded.\nCall log:"
      ∧ (lines "Failed to fill email: locator.fill: Timeout 30000ms exceeded.\nCall log:").length
        = 2 := by
  decide

/-- Claim C2, amended: for every list of N field descriptors and every
behaviour of the page, fill_form_fields called with a Page open returns the N
result messages joined by line feeds in input order; the i-th message is the
one computed for the i-th descriptor, of the form not found, filled, or failed
to fill with the message of the engine; and when N is at least one and no
message contains a line feed, the text has exactly these N messages as its
lines. -/
theorem fillFormFields_joins_messages (E : Engine) (p : Nat) (log : List Call)
    (fields : List Field) :
    (fillFormFields.execute E ⟨some p, log⟩ fields).1
        = .returns (join (fieldMessages E p fields log) "\n")
      ∧ (fieldMessages E p fields log).length = fields.length
      ∧ (∀ i (hi : i < fields.length),
          (fieldMessages E p fields log)[i]?
            = some (fillField E p (fillLoop E p (fields.take i) [] log).2 fields[i]).1)
      ∧ (∀ i (hi : i < fields.length), ∀ m, (fieldMessages E p fields log)[i]? = some m →
          m = "Field \"" ++ fields[i].fieldIdentifier ++ "\" not found"
            ∨ m = "Filled " ++ fields[i].fieldIdentifier ++ " with " ++ fields[i].value
            ∨ ∃ e, m = "Failed to fill " ++ fields[i].fieldIdentifier ++ ": " ++ e)
      ∧ (fields ≠ [] → (∀ m ∈ fieldMessages E p fields log, '\n' ∉ m.data) →
          lines (join (fieldMessages E p fields log) "\n") = fieldMessages E p fields log) := by
  refine ⟨?_, fieldMessages_length E p fields log, fieldMessages_getElem E p fields log, ?_, ?_⟩
  · show Completion.returns (join (fillLoop E p fields [] log).1 "\n") = _
    rw [fillLoop_eq E p fields [] log]
    rfl
  · intro i hi m hm
    rw [fieldMessages_getElem E p fields log i hi] at hm
    cases hm
    exact fillField_message E p _ fields[i]
  · intro hne hnl
    apply lines_join _ _ hnl
    intro h0
    have := fieldMessages_length E p fields log
    rw [h0] at this
    exact hne (List.length_eq_zero.mp this.symm)

/-- Witness of `fillFormFields_joins_messages`: the two fields of a login form
on a page where nothing is visible. -/
theorem fillFormFields_joins_messages_witness :
    lines (join (fieldMessages calmEngine 1
        [⟨"email", "a@b.com", "email"⟩, ⟨"password", "secret", "password"⟩] []) "\n")
      = fieldMessages calmEngine 1
        [⟨"email", "a@b.com", "email"⟩, ⟨"password", "secret", "password"⟩] [] :=
  (fillFormFields_joins_messages calmEngine 1 []
    [⟨"email", "a@b.com", "email"⟩, ⟨"password", "secret", "password"⟩]).2.2.2.2
    (by decide) (by decide)

/-- The calls made for one field: checks of an initial segment of its
candidates, in order, then calls that are not checks. -/
theorem fillField_order (E : Engine) (p : Nat) (h : List Call) (field : Field) :
    ∃ k t0 rest, (fillField E p h field).2 = h ++ t0 ++ rest
      ∧ (∀ c ∈ t0, c.isProbe = true)
      ∧ probedSelectors t0 = (fillSelectors field.fieldIdentifier field.fieldType).take k
      ∧ ∀ c ∈ rest, c.isProbe = false := by
  rcases resolveLoop_cases E p (fillSelectors field.fieldIdentifier field.fieldType) none h
    with ⟨i, hi, hr⟩ | hr
  · obtain ⟨t0, ht0, hp, ho⟩ := attemptAll_order E p
      ((fillSelectors field.fieldIdentifier field.fieldType).take (i + 1)) h
    have hne := fillSelectors_ne_empty field.fieldIdentifier field.fieldType _
      (List.getElem_mem hi)
    obtain ⟨t, ht, hw, _⟩ := fillField_of_found E p h field _ _ _ hr hne
    refine ⟨i + 1, t0, _, by rw [ht, ht0], hp, ho, ?_⟩
    intro c hc
    rcases List.mem_cons.mp hc with hc | hc
    · subst hc; rfl
    · rw [hw c hc]; rfl
  · have hx := fillField_of_not_found E p h field _ hr
    obtain ⟨t0, ht0, hp, ho⟩ :=
      attemptAll_order E p (fillSelectors field.fieldIdentifier field.fieldType) h
    exact ⟨(fillSelectors field.fieldIdentifier field.fieldType).length, t0, [],
      by rw [hx, ht0]; simp, hp, by simp [ho], by simp⟩

theorem fillLoop_extends (E : Engine) (p : Nat) (fields : List Field) :
    ∀ (results : List String) (h : List Call),
      ∃ t, (fillLoop E p fields results h).2 = h ++ t := by
  induction fields with
  | nil => intro results h; exact ⟨[], by simp [fillLoop]⟩
  | cons f rest ih =>
    intro results h
    obtain ⟨k, t0, r, hf, _⟩ := fillField_order E p h f
    obtain ⟨t, ht⟩ := ih (results ++ [(fillField E p h f).1]) (fillField E p h f).2
    refine ⟨t0 ++ r ++ t, ?_⟩
    rw [fillLoop, ht, hf]
    simp only [List.append_assoc]

theorem fillLoop_append (E : Engine) (p : Nat) (pre fields : List Field) :
    ∀ (results : List String) (h : List Call),
      (fillLoop E p (pre ++ fields) results h).2
        = (fillLoop E p fields [] (fillLoop E p pre [] h).2).2 := by
  induction pre with
  | nil => intro results h; rw [List.nil_append, fillLoop_eq]; rfl
  | cons f rest ih =>
    intro results h
    rw [List.cons_append, fillLoop, fillLoop, ih,
      fillLoop_eq E p rest ([] ++ [(fillField E p h f).1])]

/-- The run of the loop body for a field when candidate `i` is the first whose
check succeeds. -/
theorem fillField_at_first (E : Engine) (p : Nat) (h : List Call) (field : Field) (i : Nat)
    (hi : i < (fillSelectors field.fieldIdentifier field.fieldType).length)
    (hbefore : ∀ j (hj : j < i),
      checkSucceeds E p
        (attemptAll E p ((fillSelectors field.fieldIdentifier field.fieldType).take j) h)
        (fillSelectors field.fieldIdentifier field.fieldType)[j] = false)
    (hvis : checkSucceeds E p
      (attemptAll E p ((fillSelectors field.fieldIdentifier field.fieldType).take i) h)
      (fillSelectors field.fieldIdentifier field.fieldType)[i] = true) :
    ∃ t0 t, (fillField E p h field).2
        = h ++ t0 ++ Call.onPage p
            (.fill (fillSelectors field.fieldIdentifier field.fieldType)[i] field.value) :: t
      ∧ (∀ c ∈ t0, c.isProbe = true)
      ∧ probedSelectors t0
        = (fillSelectors field.fieldIdentifier field.fieldType).take (i + 1)
      ∧ (∀ c ∈ t, c = Call.onPage p (.waitForTimeout 300))
      ∧ ((fillField E p h field).1
            = "Filled " ++ field.fieldIdentifier ++ " with " ++ field.value
          ∨ ∃ e, (fillField E p h field).1
            = "Failed to fill " ++ field.fieldIdentifier ++ ": " ++ e) := by
  have hr := resolveLoop_first E p (fillSelectors field.fieldIdentifier field.fieldType)
    none h i hi hbefore hvis
  have hne := fillSelectors_ne_empty field.fieldIdentifier field.fieldType _
    (List.getElem_mem hi)
  obtain ⟨t0, ht0, hp, ho⟩ := attemptAll_order E p
    ((fillSelectors field.fieldIdentifier field.fieldType).take (i + 1)) h
  obtain ⟨t, ht, hw, hres⟩ := fillField_of_found E p h field _ _ _ hr hne
  exact ⟨t0, t, by rw [ht, ht0], hp, ho, hw, hres⟩

/-- The run of the loop body for a field when the check of every candidate
fails. -/
theorem fillField_at_none (E : Engine) (p : Nat) (h : List Call) (field : Field)
    (hfail : ∀ j (hj : j < (fillSelectors field.fieldIdentifier field.fieldType).length),
      checkSucceeds E p
        (attemptAll E p ((fillSelectors field.fieldIdentifier field.fieldType).take j) h)
        (fillSelectors field.fieldIdentifier field.fieldType)[j] = false) :
    ∃ t0, fillField E p h field
        = ("Field \"" ++ field.fieldIdentifier ++ "\" not found", h ++ t0)
      ∧ (∀ c ∈ t0, c.isProbe = true)
      ∧ probedSelectors t0 = fillSelectors field.fieldIdentifier field.fieldType := by
  have hr := resolveLoop_all_fail E p (fillSelectors field.fieldIdentifier field.fieldType)
    none h hfail
  have hx := fillField_of_not_found E p h field _ hr
  obtain ⟨t, ht, hp, ho⟩ :=
    attemptAll_order E p (fillSelectors field.fieldIdentifier field.fieldType) h
  exact ⟨t, by rw [hx, ht], hp, ho⟩

/-- Claim C9: for every field descriptor the candidates are, in this order, the
placeholder, aria-label, name, id, label-sibling and label-following selectors,
with the type and placeholder selector placed first exactly when fieldType is
not empty; the descriptor is processed by the loop body at the history left by
the descriptors before it; when some candidate passes its visibility check,
the candidates up to the first such one are checked in that order and the next
call is the fill of that candidate, followed at most by the settle delay; when
none passes, all candidates are checked in order, no other call is made and the
not-found message is recorded; so every fill made for the descriptor is on the
first candidate whose check succeeded, every earlier candidate having failed
it. -/
theorem fillField_fills_first_visible (E : Engine) (p : Nat) (h : List Call)
    (field : Field) :
    (field.fieldType = "" →
        fillSelectors field.fieldIdentifier field.fieldType
          = [ "input[placeholder*=\"" ++ field.fieldIdentifier ++ "\" i]",
              "input[aria-label*=\"" ++ field.fieldIdentifier ++ "\" i]",
              "input[name*=\"" ++ field.fieldIdentifier ++ "\" i]",
              "input[id*=\"" ++ field.fieldIdentifier ++ "\" i]",
              "label:has-text(\"" ++ field.fieldIdentifier ++ "\") + input, label:has-text(\""
                ++ field.fieldIdentifier ++ "\") ~ input",
              "//label[contains(., '" ++ field.fieldIdentifier ++ "')]/following::input[1]" ])
      ∧ (field.fieldType ≠ "" →
        fillSelectors field.fieldIdentifier field.fieldType
          = [ "input[type=\"" ++ field.fieldType ++ "\"][placeholder*=\""
                ++ field.fieldIdentifier ++ "\" i]",
              "input[placeholder*=\"" ++ field.fieldIdentifier ++ "\" i]",
              "input[aria-label*=\"" ++ field.fieldIdentifier ++ "\" i]",
              "input[name*=\"" ++ field.fieldIdentifier ++ "\" i]",
              "input[id*=\"" ++ field.fieldIdentifier ++ "\" i]",
              "label:has-text(\"" ++ field.fieldIdentifier ++ "\") + input, label:has-text(\""
                ++ field.fieldIdentifier ++ "\") ~ input",
              "//label[contains(., '" ++ field.fieldIdentifier ++ "')]/following::input[1]" ])
      ∧ (∀ (before after : List Field) (log : List Call),
          (fillLoop E p before [] log).2 = h →
          ∃ later, (fillFormFields.execute E ⟨some p, log⟩ (before ++ field :: after)).2
            = ⟨some p, (fillField E p h field).2 ++ later⟩)
      ∧ (∀ i (hi : i < (fillSelectors field.fieldIdentifier field.fieldType).length),
          (∀ j (hj : j < i),
            checkSucceeds E p
              (attemptAll E p ((fillSelectors field.fieldIdentifier field.fieldType).take j) h)
              (fillSelectors field.fieldIdentifier field.fieldType)[j] = false) →
          checkSucceeds E p
            (attemptAll E p ((fillSelectors field.fieldIdentifier field.fieldType).take i) h)
            (fillSelectors field.fieldIdentifier field.fieldType)[i] = true →
          ∃ t0 t, (fillField E p h field).2
              = h ++ t0 ++ Call.onPage p
                  (.fill (fillSelectors field.fieldIdentifier field.fieldType)[i] field.value) :: t
            ∧ (∀ c ∈ t0, c.isProbe = true)
            ∧ probedSelectors t0
              = (fillSelectors field.fieldIdentifier field.fieldType).take (i + 1)
            ∧ (∀ c ∈ t, c = Call.onPage p (.waitForTimeout 300))
            ∧ ((fillField E p h field).1
                  = "Filled " ++ field.fieldIdentifier ++ " with " ++ field.value
                ∨ ∃ e, (fillField E p h field).1
                  = "Failed to fill " ++ field.fieldIdentifier ++ ": " ++ e))
      ∧ ((∀ j (hj : j < (fillSelectors field.fieldIdentifier field.fieldType).length),
            checkSucceeds E p
              (attemptAll E p ((fillSelectors field.fieldIdentifier field.fieldType).take j) h)
              (fillSelectors field.fieldIdentifier field.fieldType)[j] = false) →
          ∃ t0, fillField E p h field
              = ("Field \"" ++ field.fieldIdentifier ++ "\" not found", h ++ t0)
            ∧ (∀ c ∈ t0, c.isProbe = true)
            ∧ probedSelectors t0 = fillSelectors field.fieldIdentifier field.fieldType)
      ∧ ∀ made, (fillField E p h field).2 = h ++ made →
          ∀ c ∈ made, c.isFill = true →
          ∃ i, ∃ hi : i < (fillSelectors field.fieldIdentifier field.fieldType).length,
            (∀ j (hj : j < i),
              checkSucceeds E p
                (attemptAll E p
                  ((fillSelectors field.fieldIdentifier field.fieldType).take j) h)
                (fillSelectors field.fieldIdentifier field.fieldType)[j] = false)
            ∧ checkSucceeds E p
              (attemptAll E p ((fillSelectors field.fieldIdentifier field.fieldType).take i) h)
              (fillSelectors field.fieldIdentifier field.fieldType)[i] = true
            ∧ c = Call.onPage p
              (.fill (fillSelectors field.fieldIdentifier field.fieldType)[i] field.value) := by
  refine ⟨?_, ?_, ?_, fillField_at_first E p h field, fillField_at_none E p h field, ?_⟩
  · intro hty
    simp [fillSelectors, truthy, hty]
  · intro hty
    simp [fillSelectors, truthy, hty]
  · intro before after log hh
    obtain ⟨t, ht⟩ := fillLoop_extends E p after [] (fillField E p h field).2
    refine ⟨t, ?_⟩
    show (⟨some p, (fillLoop E p (before ++ field :: after) [] log).2⟩ : Session) = _
    rw [fillLoop_append, hh]
    simp only [fillLoop]
    rw [fillLoop_eq E p after ([] ++ [(fillField E p h field).1]), ht]
  · intro made hmade c hc hfill
    rcases first_check_cases E p (fillSelectors field.fieldIdentifier field.fieldType) h
      with ⟨i, hi, hb, hv⟩ | hall
    · obtain ⟨t0, t, h2, hp, _, hw, _⟩ := fillField_at_first E p h field i hi hb hv
      rw [h2] at hmade
      simp only [List.append_assoc] at hmade
      have hm := List.append_cancel_left hmade
      rw [← hm] at hc
      rcases List.mem_append.mp hc with hc | hc
      · rw [isFill_of_isProbe c (hp c hc)] at hfill
        exact absurd hfill Bool.false_ne_true
      · rcases List.mem_cons.mp hc with hc | hc
        · exact ⟨i, hi, hb, hv, hc⟩
        · rw [hw c hc] at hfill
          exact absurd hfill (by simp [Call.isFill])
    · obtain ⟨t0, h3, hp, _⟩ := fillField_at_none E p h field hall
      rw [h3] at hmade
      have hm := List.append_cancel_left hmade
      rw [← hm] at hc
      rw [isFill_of_isProbe c (hp c hc)] at hfill
      exact absurd hfill Bool.false_ne_true

/-- Witness of `fillField_fills_first_visible`: only the placeholder candidate is
visible, so the type and placeholder candidate fails and the placeholder, the
second candidate, is the one filled; and on a page where nothing is visible
the field is reported not found after the seven checks, with no fill. -/
theorem fillField_fills_first_visible_witness :
    (∃ t0 t, (fillField placeholderOnlyEngine 1 [] ⟨"email", "a@b.com", "email"⟩).2
        = [] ++ t0 ++ Call.onPage 1
            (.fill (fillSelectors "email" "email")[1] "a@b.com") :: t
      ∧ (∀ c ∈ t0, c.isProbe = true)
      ∧ probedSelectors t0 = (fillSelectors "email" "email").take (1 + 1)
      ∧ (∀ c ∈ t, c = Call.onPage 1 (.waitForTimeout 300))
      ∧ ((fillField placeholderOnlyEngine 1 [] ⟨"email", "a@b.com", "email"⟩).1
            = "Filled " ++ "email" ++ " with " ++ "a@b.com"
          ∨ ∃ e, (fillField placeholderOnlyEngine 1 [] ⟨"email", "a@b.com", "email"⟩).1
            = "Failed to fill " ++ "email" ++ ": " ++ e))
      ∧ ∃ t0, fillField calmEngine 1 [] ⟨"email", "a@b.com", "email"⟩
          = ("Field \"" ++ "email" ++ "\" not found", [] ++ t0)
        ∧ (∀ c ∈ t0, c.isProbe = true)
        ∧ probedSelectors t0 = fillSelectors "email" "email" :=
  ⟨(fillField_fills_first_visible placeholderOnlyEngine 1 []
      ⟨"email", "a@b.com", "email"⟩).2.2.2.1 1 (by decide) (by decide) (by decide),
    (fillField_fills_first_visible calmEngine 1 []
      ⟨"email", "a@b.com", "email"⟩).2.2.2.2.1 (fun _ _ => rfl)⟩

/-! ## scroll_page -/

/-- Claim C10, as stated, fails: with direction to-element and an empty
elementIdentifier, scroll_page performs a pixel scroll of the window (by
+pixels) and brings no element into view. -/
theorem scrollPage_to_element_pixel_scroll :
    scrollPage.execute calmEngine ⟨some 1, []⟩ .toElement (some 300) ""
      = (.returns "Scrolled to-element",
          ⟨some 1, [.onPage 1 (.scrollBy 0 300), .onPage 1 (.waitForTimeout 800)]⟩) := by
  decide

/-- Claim C10, amended: with a Page open, the first engine call of scroll_page
is, for up, the scroll of the window by -pixels; for down, the scroll by
+pixels (pixels being 500 when not supplied); for to-element with a
non-empty elementIdentifier, the locator of the text selector of that
identifier, followed when the locator is built by bringing it into view, with
no pixel scroll; and for to-element with an empty elementIdentifier, the
scroll of the window by +pixels. -/
theorem scrollPage_action (E : Engine) (p : Nat) (log : List Call) (pixels : Option Int)
    (elementIdentifier : String) :
    (∃ t, (scrollPage.execute E ⟨some p, log⟩ .up pixels elementIdentifier).2
          = ⟨some p, log ++ Call.onPage p (.scrollBy 0 (-(pixels.getD 500))) :: t⟩
        ∧ ∀ c ∈ t, c = Call.onPage p (.waitForTimeout 800))
      ∧ (∃ t, (scrollPage.execute E ⟨some p, log⟩ .down pixels elementIdentifier).2
          = ⟨some p, log ++ Call.onPage p (.scrollBy 0 (pixels.getD 500)) :: t⟩
        ∧ ∀ c ∈ t, c = Call.onPage p (.waitForTimeout 800))
      ∧ (∀ amount : Int, (some amount).getD 500 = amount) ∧ (none : Option Int).getD 500 = 500
      ∧ (elementIdentifier ≠ "" →
          ∃ t, (scrollPage.execute E ⟨some p, log⟩ .toElement pixels elementIdentifier).2
              = ⟨some p, log ++ Call.onPage p (.locatorFirst ("text=" ++ elementIdentifier)) :: t⟩
            ∧ (∀ c ∈ t, c.isScrollBy = false)
            ∧ (E.fails log (.onPage p (.locatorFirst ("text=" ++ elementIdentifier))) = none →
              ∃ t2, t = Call.onPage p
                (.scrollIntoViewIfNeeded ("text=" ++ elementIdentifier)) :: t2))
      ∧ (elementIdentifier = "" →
          ∃ t, (scrollPage.execute E ⟨some p, log⟩ .toElement pixels elementIdentifier).2
              = ⟨some p, log ++ Call.onPage p (.scrollBy 0 (pixels.getD 500)) :: t⟩
            ∧ ∀ c ∈ t, c = Call.onPage p (.waitForTimeout 800)) := by
  refine ⟨?_, ?_, fun _ => rfl, rfl, ?_, ?_⟩
  · unfold scrollPage.execute
    simp only [reduceCtorEq, false_and, if_false, if_true]
    cases h1 : E.fails log (.onPage p (.scrollBy 0 (-(pixels.getD 500)))) with
    | some e => exact ⟨[], by simp, by simp⟩
    | none =>
      cases h2 : E.fails (log ++ [.onPage p (.scrollBy 0 (-(pixels.getD 500)))])
          (.onPage p (.waitForTimeout 800)) with
      | some e => exact ⟨[.onPage p (.waitForTimeout 800)], by simp, by simp⟩
      | none => exact ⟨[.onPage p (.waitForTimeout 800)], by simp, by simp⟩
  · unfold scrollPage.execute
    simp only [reduceCtorEq, false_and, if_false]
    cases h1 : E.fails log (.onPage p (.scrollBy 0 (pixels.getD 500))) with
    | some e => exact ⟨[], by simp, by simp⟩
    | none =>
      cases h2 : E.fails (log ++ [.onPage p (.scrollBy 0 (pixels.getD 500))])
          (.onPage p (.waitForTimeout 800)) with
      | some e => exact ⟨[.onPage p (.waitForTimeout 800)], by simp, by simp⟩
      | none => exact ⟨[.onPage p (.waitForTimeout 800)], by simp, by simp⟩
  · intro hne
    have ht : truthy elementIdentifier = true := (truthy_iff _).2 hne
    unfold scrollPage.execute
    simp only [ht, and_self, if_true]
    cases h0 : E.fails log (.onPage p (.locatorFirst ("text=" ++ elementIdentifier))) with
    | some e => exact ⟨[], by simp, by simp, by simp⟩
    | none =>
      cases h1 : E.fails (log ++ [.onPage p (.locatorFirst ("text=" ++ elementIdentifier))])
          (.onPage p (.scrollIntoViewIfNeeded ("text=" ++ elementIdentifier))) with
      | some e =>
        exact ⟨[.onPage p (.scrollIntoViewIfNeeded ("text=" ++ elementIdentifier))],
          by simp, by simp [Call.isScrollBy], by simp⟩
      | none =>
        cases h2 : E.fails (log ++ [.onPage p (.locatorFirst ("text=" ++ elementIdentifier))]
            ++ [.onPage p (.scrollIntoViewIfNeeded ("text=" ++ elementIdentifier))])
            (.onPage p (.waitForTimeout 1000)) with
        | some e =>
          exact ⟨[.onPage p (.scrollIntoViewIfNeeded ("text=" ++ elementIdentifier)),
            .onPage p (.waitForTimeout 1000)], by simp, by simp [Call.isScrollBy], by simp⟩
        | none =>
          exact ⟨[.onPage p (.scrollIntoViewIfNeeded ("text=" ++ elementIdentifier)),
            .onPage p (.waitForTimeout 1000)], by simp, by simp [Call.isScrollBy], by simp⟩
  · intro he
    subst he
    unfold scrollPage.execute
    have ht : truthy "" = false := rfl
    simp only [ht, reduceCtorEq, and_false, if_false]
    cases h1 : E.fails log (.onPage p (.scrollBy 0 (pixels.getD 500))) with
    | some e => exact ⟨[], by simp, by simp⟩
    | none =>
      cases h2 : E.fails (log ++ [.onPage p (.scrollBy 0 (pixels.getD 500))])
          (.onPage p (.waitForTimeout 800)) with
      | some e => exact ⟨[.onPage p (.waitForTimeout 800)], by simp, by simp⟩
      | none => exact ⟨[.onPage p (.waitForTimeout 800)], by simp, by simp⟩

/-- Witness of `scrollPage_action`: scrolling to the element with the text Footer. -/
theorem scrollPage_action_witness :
    ∃ t, (scrollPage.execute calmEngine ⟨some 1, []⟩ .toElement (some 300) "Footer").2
        = ⟨some 1, [] ++ Call.onPage 1 (.locatorFirst ("text=" ++ "Footer")) :: t⟩
      ∧ (∀ c ∈ t, c.isScrollBy = false)
      ∧ (calmEngine.fails [] (.onPage 1 (.locatorFirst ("text=" ++ "Footer"))) = none →
        ∃ t2, t = Call.onPage 1 (.scrollIntoViewIfNeeded ("text=" ++ "Footer")) :: t2) :=
  (scrollPage_action calmEngine 1 [] (some 300) "Footer").2.2.2.2.1 (by decide)

end AgentAutomation
